import Mathlib

/-!
Formal model of the TPG261 single-gauge vacuum-controller client
(`mod_Pfieffer_TPG261.py`, class `pfieffer_single_gauge_TPG261`).

The serial channel is modelled as explicit state (`St`): a queue of
pending input lines, a log of written byte sequences, a log of printed
text, an open flag and a count of physical port releases.  Each public
operation of the Python class becomes a function `... → St → Except
PyError α × St`.  Python exception classes are mirrored by the
constructors of `PyError`; the source's `PfeifferException` (the spec's
`ProtocolError`) is `PyError.protocolError`.  Python `float` values are
modelled by their exact rational value (`ℚ`); `bytes.decode("utf-8")`
is modelled on the ASCII fragment, which is the only alphabet the
protocol uses.
-/

deriving instance DecidableEq for Except

/-- Bytes of an ASCII string, as the Python `bytearray(s, "ascii")`. -/
def strBytes (s : String) : List Nat := s.data.map Char.toNat

/-- ASCII whitespace bytes stripped by Python `bytes.strip()`. -/
def isSpaceByte (b : Nat) : Bool :=
  b == 0x20 || b == 0x09 || b == 0x0a || b == 0x0b || b == 0x0c || b == 0x0d

/-- Python `bytes.strip()`: drop leading and trailing whitespace bytes. -/
def bstrip (l : List Nat) : List Nat :=
  ((l.dropWhile isSpaceByte).reverse.dropWhile isSpaceByte).reverse

/-- Python `bytes.decode("utf-8")`, restricted to the ASCII fragment used by
the wire protocol: an all-ASCII byte sequence decodes to the corresponding
text, anything else is a decode failure. -/
def decodeAscii (l : List Nat) : Option String :=
  if l.all (fun b => decide (b < 128)) then some (String.mk (l.map Char.ofNat)) else none

/-- Python `str.strip()` on the all-ASCII strings used here. -/
def pyStrip (s : String) : String :=
  String.mk (((s.data.dropWhile Char.isWhitespace).reverse.dropWhile Char.isWhitespace).reverse)

/-- Helper for Python `str.split(sep)`: cut at every separator occurrence. -/
def splitAux (sep : Char) : List Char → List Char → List (List Char)
  | [], acc => [acc.reverse]
  | c :: cs, acc =>
    if c = sep then acc.reverse :: splitAux sep cs [] else splitAux sep cs (c :: acc)

/-- Python `str.split(sep)` for a one-character separator
(`"".split(",") = [""]`, empty fields are kept). -/
def pySplit (sep : Char) (s : String) : List String :=
  (splitAux sep s.data []).map String.mk

/-- Numeric value of a list of decimal digit characters. -/
def digitsVal (cs : List Char) : Nat := cs.foldl (fun a c => 10 * a + (c.toNat - 48)) 0

/-- Parse a non-empty all-digit character list. -/
def parseDigits (cs : List Char) : Option Nat :=
  if cs.isEmpty then none
  else if cs.all Char.isDigit then some (digitsVal cs) else none

/-- Model of Python `int(str)` (base 10, optional sign, surrounding
whitespace allowed; digit-group underscores are not modelled). -/
def pyInt (s : String) : Option ℤ :=
  match (pyStrip s).data with
  | '-' :: cs => (parseDigits cs).map (fun n => -(n : ℤ))
  | '+' :: cs => (parseDigits cs).map (fun n => (n : ℤ))
  | cs => (parseDigits cs).map (fun n => (n : ℤ))

/-- Mantissa of a decimal literal: digits, optionally a point and more
digits, at least one digit in total.  Returns the digit string read as an
integer together with the number of fractional digits. -/
def parseMantissa (cs : List Char) : Option (ℤ × ℕ) :=
  let ip := cs.takeWhile Char.isDigit
  let rest := cs.dropWhile Char.isDigit
  match rest with
  | [] => if ip.isEmpty then none else some ((digitsVal ip : ℤ), 0)
  | '.' :: fp =>
    if fp.all Char.isDigit && !(ip.isEmpty && fp.isEmpty) then
      some ((digitsVal (ip ++ fp) : ℤ), fp.length)
    else none
  | _ => none

/-- Signed decimal exponent after the `e`/`E` of a float literal. -/
def parseExp (cs : List Char) : Option ℤ :=
  match cs with
  | '-' :: ds => (parseDigits ds).map (fun n => -(n : ℤ))
  | '+' :: ds => (parseDigits ds).map (fun n => (n : ℤ))
  | ds => (parseDigits ds).map (fun n => (n : ℤ))

/-- Split a float literal at its `e`/`E`, when present. -/
def splitExpChar (cs : List Char) : List Char × Option (List Char) :=
  let m := cs.takeWhile (fun c => !(c == 'e' || c == 'E'))
  match cs.dropWhile (fun c => !(c == 'e' || c == 'E')) with
  | [] => (m, none)
  | _ :: es => (m, some es)

/-- Digits-and-exponent decomposition of a Python float literal: the
accepted string denotes the value `m * 10 ^ e`. -/
def pyFloatParts (s : String) : Option (ℤ × ℤ) :=
  let t := (pyStrip s).data
  let sg : ℤ := match t with
    | '-' :: _ => -1
    | _ => 1
  let cs : List Char := match t with
    | '-' :: r => r
    | '+' :: r => r
    | r => r
  match splitExpChar cs with
  | (m, eo) =>
    match parseMantissa m with
    | none => none
    | some (mv, fl) =>
      match eo with
      | none => some (sg * mv, -(fl : ℤ))
      | some ecs =>
        match parseExp ecs with
        | none => none
        | some e => some (sg * mv, e - (fl : ℤ))

/-- Model of Python `float(str)` on finite decimal/scientific literals,
with the exact rational value of the literal (binary rounding of the
IEEE double, and the `inf`/`nan` forms, are not modelled). -/
def pyFloat (s : String) : Option ℚ :=
  (pyFloatParts s).map (fun p => (p.1 : ℚ) * 10 ^ p.2)

/-- Zero-pad a fraction below 1000 to three digits. -/
def pad3 (k : ℕ) : String :=
  if k < 10 then "00" ++ Nat.repr k
  else if k < 100 then "0" ++ Nat.repr k
  else Nat.repr k

/-- Model of the Python formatting `"%.3f" % x`: round the exact value
half-to-even at the third decimal and print it with exactly three
fractional digits (the `-0.000` sign of a tiny negative value is not
modelled). -/
def fmt3 (q : ℚ) : String :=
  let n : ℤ := q.num * 1000
  let d : ℤ := (q.den : ℤ)
  let f : ℤ := Int.fdiv n d
  let r2 : ℤ := 2 * (n - f * d)
  let m : ℤ := if r2 < d then f else if d < r2 then f + 1 else if f % 2 = 0 then f else f + 1
  (if m < 0 then "-" else "") ++ Nat.repr (m.natAbs / 1000) ++ "." ++ pad3 (m.natAbs % 1000)

/-- Boolean test that the first character list starts the second. -/
def leadsB : List Char → List Char → Bool
  | [], _ => true
  | _ :: _, [] => false
  | c :: n, d :: h => c == d && leadsB n h

/-- Boolean test that the first character list occurs contiguously inside
the second. -/
def infixOfB (n : List Char) : List Char → Bool
  | [] => leadsB n []
  | c :: t => leadsB n (c :: t) || infixOfB n t

/-- `strContainsB hay needle` holds when `needle` occurs as a contiguous
substring of `hay`. -/
def strContainsB (hay needle : String) : Bool := infixOfB needle.data hay.data

/-- Python exception classes reachable in the modelled code.
`protocolError` is the source's `PfeifferException` (the spec's
`ProtocolError`); the others are Python built-ins. -/
inductive PyError where
  | protocolError (msg : String)
  | valueError (msg : String)
  | keyError (key : ℤ)
  | unicodeDecodeError
  | portNotOpenError
deriving DecidableEq, Repr

/-- State of the serial channel owned by the client: the open flag, the
queue of input lines still to be read, the log of byte sequences written,
the log of printed text, and the count of physical port releases. -/
structure St where
  is_open : Bool
  pending : List (List Nat)
  written : List (List Nat)
  printed : List String
  releases : Nat
deriving DecidableEq, Repr

/-- Fresh open channel primed with the given input lines. -/
def mkSt (lines : List (List Nat)) : St :=
  { is_open := true, pending := lines, written := [], printed := [], releases := 0 }

/-- Modelled from the spec: `serial.Serial.write` of the external pyserial
library (not part of this repository).  Writing on an open channel logs
the bytes; writing on a closed channel fails deterministically
(pyserial raises `PortNotOpenError`). -/
def ser_write (b : List Nat) (s : St) : Except PyError Unit × St :=
  if s.is_open then (Except.ok (), { s with written := s.written ++ [b] })
  else (Except.error PyError.portNotOpenError, s)

/-- Modelled from the spec: `serial.Serial.readline` of the external
pyserial library.  Reading on an open channel yields the next pending
line, or the empty byte string on timeout when nothing is pending;
reading on a closed channel fails deterministically. -/
def ser_readline (s : St) : Except PyError (List Nat) × St :=
  if s.is_open then
    match s.pending with
    | [] => (Except.ok [], s)
    | l :: ls => (Except.ok l, { s with pending := ls })
  else (Except.error PyError.portNotOpenError, s)

/-- Modelled from the spec: `serial.Serial.close` of the external pyserial
library.  Closing an open channel performs one physical release and marks
the channel closed; closing an already closed channel does nothing. -/
def ser_close (s : St) : St :=
  if s.is_open then { s with is_open := false, releases := s.releases + 1 } else s

/-- Python `print`: append one line of text to the printed log. -/
def pyPrint (msg : String) (s : St) : St := { s with printed := s.printed ++ [msg] }

/-- Python tuple unpacking `a, b = l` of a list into two names: the
built-in `ValueError` carries Python's exact message on a length
mismatch. -/
def unpack2 (l : List String) : Except PyError (String × String) :=
  match l with
  | [a, b] => Except.ok (a, b)
  | _ =>
    if l.length < 2 then
      Except.error (PyError.valueError
        ("not enough values to unpack (expected 2, got " ++ Nat.repr l.length ++ ")"))
    else Except.error (PyError.valueError "too many values to unpack (expected 2)")

/-- Does the exchange result carry the source's `PfeifferException`
(the spec's `ProtocolError`)? -/
def isProtocolErrorR {α : Type} : Except PyError α → Bool
  | Except.error (PyError.protocolError _) => true
  | _ => false

/-- Does the exchange result carry a Python built-in `ValueError`? -/
def isValueErrorR {α : Type} : Except PyError α → Bool
  | Except.error (PyError.valueError _) => true
  | _ => false

namespace pfieffer_single_gauge_TPG261

/-- Byte constants of the module: carriage return. -/
def CR : List Nat := [0x0d]

/-- Byte constants of the module: line feed. -/
def LF : List Nat := [0x0a]

/-- Byte constants of the module: end of text. -/
def ETX : List Nat := [0x03]

/-- Byte constants of the module: the data-request (enquiry) byte. -/
def ENQ : List Nat := [0x05]

/-- Byte constants of the module: positive acknowledgement. -/
def ACK : List Nat := [0x06]

/-- Byte constants of the module: negative acknowledgement. -/
def NAK : List Nat := [0x15]

/-- The `messages` status dictionary of `get_pressure`. -/
def messages (n : ℤ) : Option String :=
  if n = 0 then some "Passed"
  else if n = 1 then some "Underrange"
  else if n = 2 then some "Overrange"
  else if n = 3 then some "Sensor Error"
  else if n = 4 then some "Sensor off"
  else if n = 5 then some "No Sensor"
  else if n = 6 then some "ID Error"
  else none

/-- The `units` dictionary of `set_units`. -/
def units (n : ℤ) : Option String :=
  if n = 0 then some "mbar/bar"
  else if n = 1 then some "Torr"
  else if n = 2 then some "Pascal"
  else none

/-- The `Filter` dictionary of `set_filter`. -/
def Filter (n : ℤ) : Option String :=
  if n = 0 then some "fast"
  else if n = 1 then some "medium (default)"
  else if n = 2 then some "slow"
  else none

/-- The `Resolution` dictionary of `set_display_resolution`. -/
def Resolution (n : ℤ) : Option String :=
  if n = 2 then some "2 digits"
  else if n = 3 then some "3 digits"
  else none

/-- `get_pressure(gauge)`: write `PR<gauge>` + CR LF, require the positive
acknowledgement, write ENQ, read and decode the data line, split it into
`status, value`, print the status label when the status is non-zero, and
return `(messages[status], float(value))`. -/
def get_pressure (gauge : ℤ) (s : St) : Except PyError (String × ℚ) × St :=
  match ser_write (strBytes ("PR" ++ Int.repr gauge) ++ CR ++ LF) s with
  | (Except.error e, s) => (Except.error e, s)
  | (Except.ok _, s) =>
  match ser_readline s with
  | (Except.error e, s) => (Except.error e, s)
  | (Except.ok line, s) =>
  if bstrip line ≠ ACK then
    (Except.error (PyError.protocolError ("Error Sending \"PR" ++ Int.repr gauge ++ "\"")), s)
  else
  match ser_write ENQ s with
  | (Except.error e, s) => (Except.error e, s)
  | (Except.ok _, s) =>
  match ser_readline s with
  | (Except.error e, s) => (Except.error e, s)
  | (Except.ok raw, s) =>
  match decodeAscii (bstrip raw) with
  | none => (Except.error PyError.unicodeDecodeError, s)
  | some line =>
  match unpack2 (pySplit ',' line) with
  | Except.error e => (Except.error e, s)
  | Except.ok (statusStr, valueStr) =>
  match pyInt statusStr with
  | none => (Except.error (PyError.valueError
      ("invalid literal for int() with base 10: " ++ statusStr)), s)
  | some status =>
  if status ≠ 0 then
    match messages status with
    | none => (Except.error (PyError.keyError status), s)
    | some lbl =>
      let s := pyPrint lbl s
      match pyFloat valueStr with
      | none => (Except.error (PyError.valueError
          ("could not convert string to float: " ++ valueStr)), s)
      | some v => (Except.ok (lbl, v), s)
  else
    match messages status with
    | none => (Except.error (PyError.keyError status), s)
    | some lbl =>
      match pyFloat valueStr with
      | none => (Except.error (PyError.valueError
          ("could not convert string to float: " ++ valueStr)), s)
      | some v => (Except.ok (lbl, v), s)

/-- `get_gauge_type()`: write `TID` + CR LF, require the positive
acknowledgement, write ENQ, read and decode the data line, split it into
the two sensor identifiers and return them. -/
def get_gauge_type (s : St) : Except PyError (String × String) × St :=
  match ser_write (strBytes "TID" ++ CR ++ LF) s with
  | (Except.error e, s) => (Except.error e, s)
  | (Except.ok _, s) =>
  match ser_readline s with
  | (Except.error e, s) => (Except.error e, s)
  | (Except.ok line, s) =>
  if bstrip line ≠ ACK then
    (Except.error (PyError.protocolError "Error sending \"TID\""), s)
  else
  match ser_write ENQ s with
  | (Except.error e, s) => (Except.error e, s)
  | (Except.ok _, s) =>
  match ser_readline s with
  | (Except.error e, s) => (Except.error e, s)
  | (Except.ok raw, s) =>
  match decodeAscii (bstrip raw) with
  | none => (Except.error PyError.unicodeDecodeError, s)
  | some line =>
  match unpack2 (pySplit ',' line) with
  | Except.error e => (Except.error e, s)
  | Except.ok (gauge_1, gauge_2) => (Except.ok (gauge_1, gauge_2), s)

/-- `get_calibration_factor()`: write `CAl` + CR LF, read one line and
ignore it (no acknowledgement check), write ENQ, read and decode the data
line, split it into the two calibration factors and return them as
strings. -/
def get_calibration_factor (s : St) : Except PyError (String × String) × St :=
  match ser_write (strBytes "CAl" ++ CR ++ LF) s with
  | (Except.error e, s) => (Except.error e, s)
  | (Except.ok _, s) =>
  match ser_readline s with
  | (Except.error e, s) => (Except.error e, s)
  | (Except.ok _, s) =>
  match ser_write ENQ s with
  | (Except.error e, s) => (Except.error e, s)
  | (Except.ok _, s) =>
  match ser_readline s with
  | (Except.error e, s) => (Except.error e, s)
  | (Except.ok raw, s) =>
  match decodeAscii (bstrip raw) with
  | none => (Except.error PyError.unicodeDecodeError, s)
  | some line =>
  match unpack2 (pySplit ',' line) with
  | Except.error e => (Except.error e, s)
  | Except.ok (G1_cal, G2_cal) => (Except.ok (G1_cal, G2_cal), s)

/-- `set_calibration_factor(gauge, cal)`: for gauge 1 write
`CAL,<cal formatted %.3f>,<1 formatted %.3f>` and return the first echoed
factor; for gauge 2 the mirror image returning the second echoed factor;
for any other gauge fall through and return `None` without touching the
channel. -/
def set_calibration_factor (gauge : ℤ) (cal : ℚ) (s : St) :
    Except PyError (Option String) × St :=
  if gauge = 1 then
    match ser_write (strBytes ("CAL," ++ fmt3 cal ++ "," ++ fmt3 1) ++ CR ++ LF) s with
    | (Except.error e, s) => (Except.error e, s)
    | (Except.ok _, s) =>
    match ser_readline s with
    | (Except.error e, s) => (Except.error e, s)
    | (Except.ok line, s) =>
    if bstrip line ≠ ACK then
      (Except.error (PyError.protocolError "Error sending Calibration factor"), s)
    else
    match ser_write ENQ s with
    | (Except.error e, s) => (Except.error e, s)
    | (Except.ok _, s) =>
    match ser_readline s with
    | (Except.error e, s) => (Except.error e, s)
    | (Except.ok raw, s) =>
    match decodeAscii (bstrip raw) with
    | none => (Except.error PyError.unicodeDecodeError, s)
    | some line =>
    match unpack2 (pySplit ',' line) with
    | Except.error e => (Except.error e, s)
    | Except.ok (G1_cal, _) => (Except.ok (some G1_cal), s)
  else if gauge = 2 then
    match ser_write (strBytes ("CAL," ++ fmt3 1 ++ "," ++ fmt3 cal) ++ CR ++ LF) s with
    | (Except.error e, s) => (Except.error e, s)
    | (Except.ok _, s) =>
    match ser_readline s with
    | (Except.error e, s) => (Except.error e, s)
    | (Except.ok line, s) =>
    if bstrip line ≠ ACK then
      (Except.error (PyError.protocolError "Error sending Calibration factor"), s)
    else
    match ser_write ENQ s with
    | (Except.error e, s) => (Except.error e, s)
    | (Except.ok _, s) =>
    match ser_readline s with
    | (Except.error e, s) => (Except.error e, s)
    | (Except.ok raw, s) =>
    match decodeAscii (bstrip raw) with
    | none => (Except.error PyError.unicodeDecodeError, s)
    | some line =>
    match unpack2 (pySplit ',' line) with
    | Except.error e => (Except.error e, s)
    | Except.ok (_, G2_cal) => (Except.ok (some G2_cal), s)
  else (Except.ok none, s)

/-- `set_units(unit)`: write `UNI,<unit>` + CR LF, require the positive
acknowledgement, write ENQ, read and decode the confirmation line, look
its integer value up in the `units` dictionary and print the confirmation
sentence; the Python return value is `None`. -/
def set_units (unit : ℤ) (s : St) : Except PyError Unit × St :=
  match ser_write (strBytes ("UNI," ++ Int.repr unit) ++ CR ++ LF) s with
  | (Except.error e, s) => (Except.error e, s)
  | (Except.ok _, s) =>
  match ser_readline s with
  | (Except.error e, s) => (Except.error e, s)
  | (Except.ok line, s) =>
  if bstrip line ≠ ACK then
    (Except.error (PyError.protocolError "Error changing units"), s)
  else
  match ser_write ENQ s with
  | (Except.error e, s) => (Except.error e, s)
  | (Except.ok _, s) =>
  match ser_readline s with
  | (Except.error e, s) => (Except.error e, s)
  | (Except.ok raw, s) =>
  match decodeAscii (bstrip raw) with
  | none => (Except.error PyError.unicodeDecodeError, s)
  | some line =>
  match pyInt line with
  | none => (Except.error (PyError.valueError
      ("invalid literal for int() with base 10: " ++ line)), s)
  | some code =>
  match units code with
  | none => (Except.error (PyError.keyError code), s)
  | some lbl =>
    (Except.ok (), pyPrint ("The TPG261 default units are set to " ++ lbl) s)

/-- `set_filter(G1, G2)`: write `FIL,<G1>,<G2>` + CR LF, require the
positive acknowledgement, write ENQ, read and decode the confirmation
line, split it into the two echoed codes, look each up in the `Filter`
dictionary and print the confirmation sentence; the Python return value
is `None`. -/
def set_filter (G1 : ℤ := 1) (G2 : ℤ := 1) (s : St) : Except PyError Unit × St :=
  match ser_write (strBytes ("FIL," ++ Int.repr G1 ++ "," ++ Int.repr G2) ++ CR ++ LF) s with
  | (Except.error e, s) => (Except.error e, s)
  | (Except.ok _, s) =>
  match ser_readline s with
  | (Except.error e, s) => (Except.error e, s)
  | (Except.ok line, s) =>
  if bstrip line ≠ ACK then
    (Except.error (PyError.protocolError "Error changing the filter speed to fast"), s)
  else
  match ser_write ENQ s with
  | (Except.error e, s) => (Except.error e, s)
  | (Except.ok _, s) =>
  match ser_readline s with
  | (Except.error e, s) => (Except.error e, s)
  | (Except.ok raw, s) =>
  match decodeAscii (bstrip raw) with
  | none => (Except.error PyError.unicodeDecodeError, s)
  | some line =>
  match unpack2 (pySplit ',' line) with
  | Except.error e => (Except.error e, s)
  | Except.ok (gauge1, gauge2) =>
  match pyInt gauge1 with
  | none => (Except.error (PyError.valueError
      ("invalid literal for int() with base 10: " ++ gauge1)), s)
  | some c1 =>
  match Filter c1 with
  | none => (Except.error (PyError.keyError c1), s)
  | some f1 =>
  match pyInt gauge2 with
  | none => (Except.error (PyError.valueError
      ("invalid literal for int() with base 10: " ++ gauge2)), s)
  | some c2 =>
  match Filter c2 with
  | none => (Except.error (PyError.keyError c2), s)
  | some f2 =>
    (Except.ok (), pyPrint
      ("The TPG261 Filter speed for Gauge 1 is " ++ f1 ++ " and for Gauge 2 is " ++ f2) s)

/-- `set_display_resolution()`: write `DCD,3` + CR LF, require the
positive acknowledgement, write ENQ, read and decode the confirmation
line, look its integer value up in the `Resolution` dictionary and print
the confirmation sentence; the Python return value is `None`. -/
def set_display_resolution (s : St) : Except PyError Unit × St :=
  let resolution : ℤ := 3
  match ser_write (strBytes ("DCD," ++ Int.repr resolution) ++ CR ++ LF) s with
  | (Except.error e, s) => (Except.error e, s)
  | (Except.ok _, s) =>
  match ser_readline s with
  | (Except.error e, s) => (Except.error e, s)
  | (Except.ok line, s) =>
  if bstrip line ≠ ACK then
    (Except.error (PyError.protocolError "Error in changing the display resolution"), s)
  else
  match ser_write ENQ s with
  | (Except.error e, s) => (Except.error e, s)
  | (Except.ok _, s) =>
  match ser_readline s with
  | (Except.error e, s) => (Except.error e, s)
  | (Except.ok raw, s) =>
  match decodeAscii (bstrip raw) with
  | none => (Except.error PyError.unicodeDecodeError, s)
  | some res =>
  match pyInt res with
  | none => (Except.error (PyError.valueError
      ("invalid literal for int() with base 10: " ++ res)), s)
  | some code =>
  match Resolution code with
  | none => (Except.error (PyError.keyError code), s)
  | some r =>
    (Except.ok (), pyPrint ("The display resolution has been set to " ++ r ++ " digits.") s)

/-- `close()`: delegate to the channel release. -/
def close (s : St) : St := ser_close s

end pfieffer_single_gauge_TPG261

open pfieffer_single_gauge_TPG261

theorem leadsB_self_append (n s : List Char) : leadsB n (n ++ s) = true := by
  induction n with
  | nil => rfl
  | cons c t ih => simp [leadsB, ih]

theorem infixOfB_of_leads (n h : List Char) (hl : leadsB n h = true) :
    infixOfB n h = true := by
  cases h with
  | nil => simpa [infixOfB] using hl
  | cons c t => simp [infixOfB, hl]

theorem infixOfB_middle (p n s : List Char) : infixOfB n (p ++ (n ++ s)) = true := by
  induction p with
  | nil => simpa using infixOfB_of_leads n (n ++ s) (leadsB_self_append n s)
  | cons c p ih => simp [infixOfB, ih]

/-- C1: the claim demands that every public operation raise a
`ProtocolError` and withhold the data-request byte whenever the first
response line is not the positive acknowledgement, but
`get_calibration_factor` (one of the claim's own sources) never checks the
first line: on a channel answering NAK `0x15` and then `1.000,0.940` it
returns the two fields, writes the data-request byte `0x05`, and raises
nothing. -/
theorem C1_get_calibration_factor_skips_ack_check :
    (get_calibration_factor (mkSt [[0x15], strBytes "1.000,0.940"])).1
        = Except.ok ("1.000", "0.940")
    ∧ ENQ ∈ (get_calibration_factor (mkSt [[0x15], strBytes "1.000,0.940"])).2.written
    ∧ isProtocolErrorR
        (get_calibration_factor (mkSt [[0x15], strBytes "1.000,0.940"])).1 = false := by
  decide

/-- C2: `get_calibration_factor()` performs no acknowledgement
validation: whatever the first response line is, it writes the
data-request byte `0x05` and returns the two comma-separated fields of
the second line as strings. -/
theorem C2_get_calibration_factor_no_ack_validation
    (first l2 : List Nat) (rest : List (List Nat)) (ds a b : String)
    (hdec : decodeAscii (bstrip l2) = some ds)
    (hsplit : pySplit ',' ds = [a, b]) :
    (get_calibration_factor (mkSt (first :: l2 :: rest))).1 = Except.ok (a, b)
      ∧ ENQ ∈ (get_calibration_factor (mkSt (first :: l2 :: rest))).2.written := by
  simp [get_calibration_factor, ser_write, ser_readline, mkSt, hdec, hsplit, unpack2]

theorem C2_no_ack_validation_witness :
    (get_calibration_factor (mkSt [[0x15], strBytes "1.000,0.940"])).1
        = Except.ok ("1.000", "0.940")
      ∧ ENQ ∈ (get_calibration_factor (mkSt [[0x15], strBytes "1.000,0.940"])).2.written :=
  C2_get_calibration_factor_no_ack_validation [0x15] (strBytes "1.000,0.940") []
    "1.000,0.940" "1.000" "0.940" (by decide) (by decide)

/-- C3: after a positive acknowledgement, `get_pressure` splits the data
line into a status code and a value, maps the status through the fixed
`messages` table to its label, and returns the pair of the label and the
value parsed as a floating-point number — for every status with an entry
in the table, not only status 0. -/
theorem C3_get_pressure_status_label_and_value
    (gauge : ℤ) (l1 l2 : List Nat) (rest : List (List Nat))
    (ds stStr valStr : String) (n : ℤ) (lbl : String) (q : ℚ)
    (hack : bstrip l1 = ACK)
    (hdec : decodeAscii (bstrip l2) = some ds)
    (hsplit : pySplit ',' ds = [stStr, valStr])
    (hint : pyInt stStr = some n)
    (hlbl : messages n = some lbl)
    (hq : pyFloat valStr = some q) :
    (get_pressure gauge (mkSt (l1 :: l2 :: rest))).1 = Except.ok (lbl, q) := by
  by_cases hn : n = 0
  · subst hn
    simp [get_pressure, ser_write, ser_readline, mkSt, hack, hdec, hsplit, hint, hlbl, hq,
      unpack2, pyPrint]
  · simp [get_pressure, ser_write, ser_readline, mkSt, hack, hdec, hsplit, hint, hlbl, hq,
      unpack2, pyPrint, hn]

theorem C3_get_pressure_witness :
    (get_pressure 1 (mkSt [[0x06], strBytes "0,1.0e-5"])).1
      = Except.ok ("Passed", (1.0e-5 : ℚ)) := by
  have hq : pyFloat "1.0e-5" = some (1.0e-5 : ℚ) := by
    have h1 : pyFloatParts "1.0e-5" = some (10, -6) := by decide
    rw [pyFloat, h1]
    show some _ = some _
    norm_num
  exact C3_get_pressure_status_label_and_value 1 [0x06] (strBytes "0,1.0e-5") []
    "0,1.0e-5" "0" "1.0e-5" 0 "Passed" (1.0e-5 : ℚ)
    (by decide) (by decide) (by decide) (by decide) (by decide) hq

/-- C4: `set_calibration_factor(1, x)` writes `CAL,<x %.3f>,<1 %.3f>`
(and `1` formats to `1.000`), returning the first echoed factor;
`set_calibration_factor(2, x)` writes the inverse arrangement and returns
the second echoed factor. -/
theorem C4_set_calibration_factor_field_arrangement
    (x : ℚ) (l1 l2 : List Nat) (rest : List (List Nat)) (ds a b : String)
    (hack : bstrip l1 = ACK)
    (hdec : decodeAscii (bstrip l2) = some ds)
    (hsplit : pySplit ',' ds = [a, b]) :
    fmt3 (1 : ℚ) = "1.000"
    ∧ set_calibration_factor 1 x (mkSt (l1 :: l2 :: rest))
        = (Except.ok (some a),
           { is_open := true, pending := rest,
             written := [strBytes ("CAL," ++ fmt3 x ++ "," ++ fmt3 1) ++ CR ++ LF, ENQ],
             printed := [], releases := 0 })
    ∧ set_calibration_factor 2 x (mkSt (l1 :: l2 :: rest))
        = (Except.ok (some b),
           { is_open := true, pending := rest,
             written := [strBytes ("CAL," ++ fmt3 1 ++ "," ++ fmt3 x) ++ CR ++ LF, ENQ],
             printed := [], releases := 0 }) := by
  refine ⟨by decide, ?_, ?_⟩ <;>
    simp [set_calibration_factor, ser_write, ser_readline, mkSt, hack, hdec, hsplit, unpack2]

theorem C4_set_calibration_factor_witness :
    fmt3 (1 : ℚ) = "1.000"
    ∧ set_calibration_factor 1 2 (mkSt [[0x06], strBytes "0.940,1.050"])
        = (Except.ok (some "0.940"),
           { is_open := true, pending := [],
             written := [strBytes ("CAL," ++ fmt3 2 ++ "," ++ fmt3 1) ++ CR ++ LF, ENQ],
             printed := [], releases := 0 })
    ∧ set_calibration_factor 2 2 (mkSt [[0x06], strBytes "0.940,1.050"])
        = (Except.ok (some "1.050"),
           { is_open := true, pending := [],
             written := [strBytes ("CAL," ++ fmt3 1 ++ "," ++ fmt3 2) ++ CR ++ LF, ENQ],
             printed := [], releases := 0 }) :=
  C4_set_calibration_factor_field_arrangement 2 [0x06] (strBytes "0.940,1.050") []
    "0.940,1.050" "0.940" "1.050" (by decide) (by decide) (by decide)

/-- C5 counterexample: on a data line with three comma-separated fields,
`get_pressure` fails with the Python built-in `ValueError` raised by the
tuple unpacking, not with the `PfeifferException`/`ProtocolError` the
claim requires. -/
theorem C5_field_count_not_protocol_error_counterexample :
    (get_pressure 1 (mkSt [[0x06], strBytes "0,1,2"])).1
        = Except.error (PyError.valueError "too many values to unpack (expected 2)")
    ∧ isProtocolErrorR (get_pressure 1 (mkSt [[0x06], strBytes "0,1,2"])).1 = false := by
  decide

/-- C5 (amended): on a data line whose comma-split field count differs
from the expected two, each of `get_pressure`, `get_gauge_type`,
`get_calibration_factor`, `set_calibration_factor` and `set_filter` fails
with the built-in `ValueError` of the tuple unpacking (not with a
`ProtocolError`). -/
theorem C5_field_count_raises_value_error
    (l1 l2 : List Nat) (rest : List (List Nat)) (ds : String)
    (gauge G1 G2 : ℤ) (x : ℚ)
    (hack : bstrip l1 = ACK)
    (hdec : decodeAscii (bstrip l2) = some ds)
    (hlen : (pySplit ',' ds).length ≠ 2) :
    isValueErrorR (get_pressure gauge (mkSt (l1 :: l2 :: rest))).1 = true
    ∧ isValueErrorR (get_gauge_type (mkSt (l1 :: l2 :: rest))).1 = true
    ∧ isValueErrorR (get_calibration_factor (mkSt (l1 :: l2 :: rest))).1 = true
    ∧ isValueErrorR (set_calibration_factor 1 x (mkSt (l1 :: l2 :: rest))).1 = true
    ∧ isValueErrorR (set_calibration_factor 2 x (mkSt (l1 :: l2 :: rest))).1 = true
    ∧ isValueErrorR (set_filter G1 G2 (mkSt (l1 :: l2 :: rest))).1 = true := by
  obtain ⟨m, hm⟩ : ∃ m, unpack2 (pySplit ',' ds) = Except.error (PyError.valueError m) := by
    match hl : pySplit ',' ds with
    | [] => exact ⟨_, rfl⟩
    | [a] => exact ⟨_, rfl⟩
    | [a, b] => rw [hl] at hlen; simp at hlen
    | a :: b :: c :: t => exact ⟨_, rfl⟩
  refine ⟨?_, ?_, ?_, ?_, ?_, ?_⟩ <;>
    simp [get_pressure, get_gauge_type, get_calibration_factor, set_calibration_factor,
      set_filter, ser_write, ser_readline, mkSt, hack, hdec, hm, isValueErrorR]

theorem C5_field_count_witness :
    isValueErrorR (get_pressure 1 (mkSt [[0x06], strBytes "0,1,2"])).1 = true
    ∧ isValueErrorR (get_gauge_type (mkSt [[0x06], strBytes "0,1,2"])).1 = true
    ∧ isValueErrorR (get_calibration_factor (mkSt [[0x06], strBytes "0,1,2"])).1 = true
    ∧ isValueErrorR (set_calibration_factor 1 1 (mkSt [[0x06], strBytes "0,1,2"])).1 = true
    ∧ isValueErrorR (set_calibration_factor 2 1 (mkSt [[0x06], strBytes "0,1,2"])).1 = true
    ∧ isValueErrorR (set_filter 1 1 (mkSt [[0x06], strBytes "0,1,2"])).1 = true :=
  C5_field_count_raises_value_error [0x06] (strBytes "0,1,2") [] "0,1,2" 1 1 1 1
    (by decide) (by decide) (by decide)

/-- C6 counterexample: the acknowledgement-failure message of
`set_units` is the fixed text `Error changing units`, which does not
contain the offending command mnemonic `UNI`, refuting the claim that
every acknowledgement-checking operation names its command in the
error message. -/
theorem C6_message_counterexample :
    (set_units 1 (mkSt [[0x15]])).1
        = Except.error (PyError.protocolError "Error changing units")
    ∧ strContainsB "Error changing units" "UNI" = false := by
  decide

/-- C6 (amended): on an acknowledgement failure every checking operation
raises the `PfeifferException`/`ProtocolError`, but only `get_pressure`
and `get_gauge_type` put the command mnemonic in the message;
`set_calibration_factor`, `set_units`, `set_filter` and
`set_display_resolution` use fixed descriptive messages that do not
contain their mnemonics `CAL`, `UNI`, `FIL`, `DCD`. -/
theorem C6_ack_failure_messages
    (l : List Nat) (rest : List (List Nat)) (gauge u G1 G2 : ℤ) (x : ℚ)
    (hnack : bstrip l ≠ ACK) :
    ((get_pressure gauge (mkSt (l :: rest))).1
        = Except.error (PyError.protocolError ("Error Sending \"PR" ++ Int.repr gauge ++ "\""))
      ∧ strContainsB ("Error Sending \"PR" ++ Int.repr gauge ++ "\"")
          ("PR" ++ Int.repr gauge) = true)
    ∧ ((get_gauge_type (mkSt (l :: rest))).1
        = Except.error (PyError.protocolError "Error sending \"TID\"")
      ∧ strContainsB "Error sending \"TID\"" "TID" = true)
    ∧ ((set_calibration_factor 1 x (mkSt (l :: rest))).1
        = Except.error (PyError.protocolError "Error sending Calibration factor")
      ∧ (set_calibration_factor 2 x (mkSt (l :: rest))).1
        = Except.error (PyError.protocolError "Error sending Calibration factor")
      ∧ strContainsB "Error sending Calibration factor" "CAL" = false)
    ∧ ((set_units u (mkSt (l :: rest))).1
        = Except.error (PyError.protocolError "Error changing units")
      ∧ strContainsB "Error changing units" "UNI" = false)
    ∧ ((set_filter G1 G2 (mkSt (l :: rest))).1
        = Except.error (PyError.protocolError "Error changing the filter speed to fast")
      ∧ strContainsB "Error changing the filter speed to fast" "FIL" = false)
    ∧ ((set_display_resolution (mkSt (l :: rest))).1
        = Except.error (PyError.protocolError "Error in changing the display resolution")
      ∧ strContainsB "Error in changing the display resolution" "DCD" = false) := by
  have hPR : strContainsB ("Error Sending \"PR" ++ Int.repr gauge ++ "\"")
      ("PR" ++ Int.repr gauge) = true := by
    unfold strContainsB
    rw [String.data_append, String.data_append, String.data_append]
    rw [show "Error Sending \"PR".data = "Error Sending \"".data ++ "PR".data from by decide]
    simpa [List.append_assoc] using
      infixOfB_middle ("Error Sending \"".data) ("PR".data ++ (Int.repr gauge).data)
        ("\"".data)
  refine ⟨⟨?_, hPR⟩, ⟨?_, by decide⟩, ⟨?_, ?_, by decide⟩, ⟨?_, by decide⟩,
    ⟨?_, by decide⟩, ⟨?_, by decide⟩⟩ <;>
    simp [get_pressure, get_gauge_type, set_calibration_factor, set_units, set_filter,
      set_display_resolution, ser_write, ser_readline, mkSt, hnack]

theorem C6_ack_failure_messages_witness :
    (((get_pressure 1 (mkSt [[0x15]])).1
        = Except.error (PyError.protocolError ("Error Sending \"PR" ++ Int.repr 1 ++ "\""))
      ∧ strContainsB ("Error Sending \"PR" ++ Int.repr 1 ++ "\"")
          ("PR" ++ Int.repr 1) = true)
    ∧ ((get_gauge_type (mkSt [[0x15]])).1
        = Except.error (PyError.protocolError "Error sending \"TID\"")
      ∧ strContainsB "Error sending \"TID\"" "TID" = true)
    ∧ ((set_calibration_factor 1 1 (mkSt [[0x15]])).1
        = Except.error (PyError.protocolError "Error sending Calibration factor")
      ∧ (set_calibration_factor 2 1 (mkSt [[0x15]])).1
        = Except.error (PyError.protocolError "Error sending Calibration factor")
      ∧ strContainsB "Error sending Calibration factor" "CAL" = false)
    ∧ ((set_units 1 (mkSt [[0x15]])).1
        = Except.error (PyError.protocolError "Error changing units")
      ∧ strContainsB "Error changing units" "UNI" = false)
    ∧ ((set_filter 1 1 (mkSt [[0x15]])).1
        = Except.error (PyError.protocolError "Error changing the filter speed to fast")
      ∧ strContainsB "Error changing the filter speed to fast" "FIL" = false)
    ∧ ((set_display_resolution (mkSt [[0x15]])).1
        = Except.error (PyError.protocolError "Error in changing the display resolution")
      ∧ strContainsB "Error in changing the display resolution" "DCD" = false)) :=
  C6_ack_failure_messages [0x15] [] 1 1 1 1 1 (by decide)

/-- C7: with unit code 1 acknowledged positively and the confirmation
line `1`, `set_units(1)` completes without an exception (the Python
return value is `None`) and reports the confirmed unit by printing the
confirmation sentence, which names the Torr label. -/
theorem C7_set_units_torr_reported :
    set_units 1 (mkSt [[0x06], strBytes "1"])
        = (Except.ok (),
           { is_open := true, pending := [],
             written := [strBytes "UNI,1" ++ CR ++ LF, ENQ],
             printed := ["The TPG261 default units are set to Torr"], releases := 0 })
    ∧ strContainsB "The TPG261 default units are set to Torr" "Torr" = true := by
  decide

/-- C8: `close()` is idempotent — a second call changes nothing and in
particular performs no second physical release — and every public
operation invoked after `close()` fails deterministically with the
port-not-open error instead of hanging or mutating the channel
state. -/
theorem C8_close_idempotent_and_fail_after_close
    (s : St) (g u G1 G2 : ℤ) (x : ℚ) (hg : g = 1 ∨ g = 2) :
    close (close s) = close s
    ∧ (close (close s)).releases = (close s).releases
    ∧ (get_pressure g (close s)).1 = Except.error PyError.portNotOpenError
    ∧ (get_gauge_type (close s)).1 = Except.error PyError.portNotOpenError
    ∧ (get_calibration_factor (close s)).1 = Except.error PyError.portNotOpenError
    ∧ (set_calibration_factor g x (close s)).1 = Except.error PyError.portNotOpenError
    ∧ (set_units u (close s)).1 = Except.error PyError.portNotOpenError
    ∧ (set_filter G1 G2 (close s)).1 = Except.error PyError.portNotOpenError
    ∧ (set_display_resolution (close s)).1 = Except.error PyError.portNotOpenError := by
  have hop : (close s).is_open = false := by
    by_cases h : s.is_open <;> simp [close, ser_close, h]
  rcases hg with hg | hg <;> subst hg <;>
    refine ⟨by by_cases h : s.is_open <;> simp [close, ser_close, h],
      by by_cases h : s.is_open <;> simp [close, ser_close, h],
      ?_, ?_, ?_, ?_, ?_, ?_, ?_⟩ <;>
    simp [get_pressure, get_gauge_type, get_calibration_factor, set_calibration_factor,
      set_units, set_filter, set_display_resolution, ser_write, hop]

theorem C8_close_witness :
    close (close (mkSt [])) = close (mkSt [])
    ∧ (close (close (mkSt []))).releases = (close (mkSt [])).releases
    ∧ (get_pressure 1 (close (mkSt []))).1 = Except.error PyError.portNotOpenError
    ∧ (get_gauge_type (close (mkSt []))).1 = Except.error PyError.portNotOpenError
    ∧ (get_calibration_factor (close (mkSt []))).1 = Except.error PyError.portNotOpenError
    ∧ (set_calibration_factor 1 1 (close (mkSt []))).1 = Except.error PyError.portNotOpenError
    ∧ (set_units 1 (close (mkSt []))).1 = Except.error PyError.portNotOpenError
    ∧ (set_filter 1 1 (close (mkSt []))).1 = Except.error PyError.portNotOpenError
    ∧ (set_display_resolution (close (mkSt []))).1 = Except.error PyError.portNotOpenError :=
  C8_close_idempotent_and_fail_after_close (mkSt []) 1 1 1 1 1 (Or.inl rfl)

/-- C9: for a gauge index other than 1 and 2, `set_calibration_factor`
falls through both branches: it returns `None`, leaves the channel state
untouched (no bytes written, nothing read, nothing printed) and raises
nothing. -/
theorem C9_set_calibration_factor_invalid_gauge_noop
    (gauge : ℤ) (x : ℚ) (s : St) (h1 : gauge ≠ 1) (h2 : gauge ≠ 2) :
    set_calibration_factor gauge x s = (Except.ok none, s) := by
  simp [set_calibration_factor, h1, h2]

theorem C9_invalid_gauge_witness :
    set_calibration_factor 3 1 (mkSt []) = (Except.ok none, mkSt []) :=
  C9_set_calibration_factor_invalid_gauge_noop 3 1 (mkSt []) (by decide) (by decide)

/-- C10: when the data line carries an integer status code outside the
`messages` table (outside 0–6), `get_pressure` fails with the Python
`KeyError` of the unguarded dictionary lookup, not with a
`ProtocolError` and not with a returned reading. -/
theorem C10_get_pressure_unknown_status_key_error
    (gauge : ℤ) (l1 l2 : List Nat) (rest : List (List Nat))
    (ds stStr valStr : String) (n : ℤ)
    (hack : bstrip l1 = ACK)
    (hdec : decodeAscii (bstrip l2) = some ds)
    (hsplit : pySplit ',' ds = [stStr, valStr])
    (hint : pyInt stStr = some n)
    (hout : n < 0 ∨ 6 < n) :
    (get_pressure gauge (mkSt (l1 :: l2 :: rest))).1 = Except.error (PyError.keyError n)
    ∧ isProtocolErrorR (get_pressure gauge (mkSt (l1 :: l2 :: rest))).1 = false := by
  have hnone : messages n = none := by
    unfold messages
    rw [if_neg (by omega), if_neg (by omega), if_neg (by omega), if_neg (by omega),
      if_neg (by omega), if_neg (by omega), if_neg (by omega)]
  have hn0 : n ≠ 0 := by omega
  have hmain : (get_pressure gauge (mkSt (l1 :: l2 :: rest))).1
      = Except.error (PyError.keyError n) := by
    simp [get_pressure, ser_write, ser_readline, mkSt, hack, hdec, hsplit, hint, hnone, hn0,
      unpack2]
  exact ⟨hmain, by rw [hmain]; rfl⟩

theorem C10_unknown_status_witness :
    (get_pressure 1 (mkSt [[0x06], strBytes "7,1.0e-5"])).1
        = Except.error (PyError.keyError 7)
    ∧ isProtocolErrorR (get_pressure 1 (mkSt [[0x06], strBytes "7,1.0e-5"])).1 = false :=
  C10_get_pressure_unknown_status_key_error 1 [0x06] (strBytes "7,1.0e-5") []
    "7,1.0e-5" "7" "1.0e-5" 7 (by decide) (by decide) (by decide) (by decide)
    (Or.inr (by decide))
